import Mathlib

/-!
Verification development for the expo OTA update runtime sources:
the engine facade (UpdatesController), its checkForUpdate flow, the
database-lease protocol around the extra-params operations, the launch
counters, the no-database emergency launcher, and the expo-sqlite
prepared-statement parameter normalization.

Each definition is a shallow embedding of the corresponding source
function; modelling notes on each definition record where it comes from.
-/

namespace ExpoUpdates

/-! ## Data model -/

/-- A stored update row (UpdateEntity): id is the server-assigned UUID,
commitTime the server timestamp, plus the two launch counters and the
opaque manifest JSON. -/
structure UpdateEntity where
  id : String
  commitTime : Nat
  failedLaunchCount : Nat
  successfulLaunchCount : Nat
  manifest : String
deriving DecidableEq, Repr

/-- Manifest filters from the response headers, an opaque key-value list. -/
abbrev ManifestFilters := List (String × String)

/-- An update manifest part of a server response: carries the raw manifest
JSON and (possibly) the parsed UpdateEntity. -/
structure UpdateManifest where
  updateEntity : Option UpdateEntity
  manifest : String
deriving DecidableEq, Repr

/-- A server directive: either roll back to the embedded update (with a
commit time) or an explicit no-update-available. -/
inductive UpdateDirective where
  | rollBackToEmbedded (commitTime : Nat)
  | noUpdateAvailable
deriving DecidableEq, Repr

/-- A parsed server response: a directive part and a manifest part, either
of which may be absent, plus the response-header manifest filters. -/
structure UpdateResponse where
  directive : Option UpdateDirective
  manifest : Option UpdateManifest
  manifestFilters : Option ManifestFilters
deriving DecidableEq, Repr

/-- The catalog: the stored UpdateEntity rows of the updates database. -/
abbrev Catalog := List UpdateEntity

/-- Modelled from the spec: UpdateDao.loadUpdateWithId is not under src/;
the catalog is a keyed store of UpdateEntity rows, so the lookup returns
the first row with the given id. -/
def loadUpdateWithId (db : Catalog) (i : String) : Option UpdateEntity :=
  db.find? (fun row => row.id = i)

/-- The two selection-policy decision functions consulted by
checkForUpdate. The controller calls them through the SelectionPolicy
object; they are kept abstract here, exactly as the controller sees them. -/
structure SelectionPolicy where
  shouldLoadNewUpdate :
    Option UpdateEntity → Option UpdateEntity → Option ManifestFilters → Bool
  shouldLoadRollBackToEmbeddedDirective :
    UpdateDirective → UpdateEntity → Option UpdateEntity → Option ManifestFilters → Bool

end ExpoUpdates

namespace ExpoSQLite

/-! ## expo-sqlite Statement parameter normalization (src/unnamed/part_000) -/

/-- A JavaScript value as seen by normalizeParams: the cases are exactly
what the dynamic tests in the source distinguish (typeof x === "object"
is true for null, arrays and plain objects; Array.isArray singles out
arrays). -/
inductive JSVal where
  | jnull
  | jundefined
  | jnum (n : Int)
  | jstr (s : String)
  | jbool (b : Bool)
  | jarr (xs : List JSVal)
  | jobj (fields : List (String × JSVal))

/-- JavaScript typeof x === "object": true for null, arrays and objects. -/
def typeofIsObject : JSVal → Bool
  | JSVal.jnull => true
  | JSVal.jarr _ => true
  | JSVal.jobj _ => true
  | _ => false

/-- JavaScript Array.isArray. -/
def isArray : JSVal → Bool
  | JSVal.jarr _ => true
  | _ => false

/-- JavaScript params[0] on the rest-argument array: undefined when the
argument list is empty. -/
def headOrUndefined : List JSVal → JSVal
  | [] => JSVal.jundefined
  | v :: _ => v

/-- Shallow embedding of normalizeParams (src/unnamed/part_000, lines
277-290): with more than one argument the raw argument array is used;
otherwise the single argument; a non-object value is wrapped in a
one-element array; shouldPassAsObject is the negation of Array.isArray
on the result. -/
def normalizeParams (params : List JSVal) : JSVal × Bool :=
  let bindParams :=
    if params.length > 1 then JSVal.jarr params else headOrUndefined params
  let bindParams2 :=
    if typeofIsObject bindParams then bindParams else JSVal.jarr [bindParams]
  (bindParams2, !(isArray bindParams2))

/-- The two native binding entry points a Statement method can dispatch
to (objectRunAsync and friends versus arrayRunAsync and friends). -/
inductive NativeCall where
  | objectCall
  | arrayCall
deriving DecidableEq, Repr

/-- Shallow embedding of the dispatch in Statement.runAsync (and the
identical dispatch in getAsync, allAsync, eachAsync and the Sync
variants): calls the object-binding native function exactly when
normalizeParams sets shouldPassAsObject. -/
def runDispatch (params : List JSVal) : NativeCall × JSVal :=
  let r := normalizeParams params
  (if r.2 then NativeCall.objectCall else NativeCall.arrayCall, r.1)

end ExpoSQLite

namespace ExpoUpdates

/-! ## Engine facade state (UpdatesController, Kotlin source) -/

/-- The subset of UpdatesConfiguration read by the controller paths under
study: the master switch, the two mandatory-when-enabled keys, and the
hasEmbeddedUpdate flag consulted by checkForUpdate. -/
structure UpdatesConfiguration where
  isEnabled : Bool
  updateUrl : Option String
  scopeKey : Option String
  hasEmbeddedUpdate : Bool
deriving DecidableEq, Repr

/-- A launcher as the controller observes it: the four getters the
controller forwards (launchAssetFile, bundleAssetName, launchedUpdate,
isUsingEmbeddedAssets). -/
structure Launcher where
  launchAssetFile : Option String
  bundleAssetName : Option String
  launchedUpdate : Option UpdateEntity
  isUsingEmbeddedAssets : Bool
deriving DecidableEq, Repr

/-- Modelled from the spec: the Android NoDatabaseLauncher class is not
under src/ (src/unnamed/part_001 is its iOS analog). Per the spec it
launches the embedded payload without the catalog: launchAssetFile is
null (the spec has launchAssetFile return null in the emergency launch,
and bundleAssetName return the embedded asset name exactly when
launchAssetFile is null), and it always uses embedded assets. -/
def noDatabaseLauncher : Launcher :=
  { launchAssetFile := none
    bundleAssetName := some "app.bundle"
    launchedUpdate := none
    isUsingEmbeddedAssets := true }

/-- The UpdatesController instance state touched by the claims: the
configuration, the updates directory (null when it could not be
created), the current launcher, the isStarted / isLoaderTaskFinished /
isEmergencyLaunch flags, whether a LoaderTask has been spawned, and the
catalog rows of its database. -/
structure Controller where
  updatesConfiguration : UpdatesConfiguration
  updatesDirectory : Option String
  launcher : Option Launcher
  isStarted : Bool
  isLoaderTaskFinished : Bool
  isEmergencyLaunch : Bool
  loaderTaskSpawned : Bool
  catalog : Catalog
deriving DecidableEq, Repr

/-- The launchedUpdate getter: launcher?.launchedUpdate. -/
def Controller.launchedUpdate (c : Controller) : Option UpdateEntity :=
  c.launcher.bind Launcher.launchedUpdate

/-- The expression launcher?.launchAssetFile returned by the
launchAssetFile getter once the wait loop exits. -/
def Controller.currentLaunchAssetFile (c : Controller) : Option String :=
  c.launcher.bind Launcher.launchAssetFile

/-- One call to the blocking launchAssetFile getter, modelled as a
one-shot barrier: the outer none means the caller is still suspended on
the condition variable (the getter has not returned); some r means the
getter returned r = launcher?.launchAssetFile. The wait loop exits
exactly when isLoaderTaskFinished is set, and runs zero iterations when
it is already set. -/
def Controller.launchAssetFileCall (c : Controller) : Option (Option String) :=
  if c.isLoaderTaskFinished then some c.currentLaunchAssetFile else none

/-- The AssertionError throws in start and notifyController. -/
inductive StartError where
  | assertionFailed (msg : String)
deriving DecidableEq, Repr

/-- Shallow embedding of UpdatesController.notifyController: asserts the
launcher is set, then sets isLoaderTaskFinished and wakes the waiters on
the condition variable. -/
def Controller.notifyController (c : Controller) : Except StartError Controller :=
  match c.launcher with
  | none =>
      Except.error (StartError.assertionFailed
        "UpdatesController.notifyController was called with a null launcher")
  | some _ => Except.ok { c with isLoaderTaskFinished := true }

/-- Shallow embedding of UpdatesController.start: returns immediately if
already started; with updates disabled installs the no-database launcher
and notifies; throws if enabled without updateUrl and scopeKey; with a
null updates directory installs the no-database launcher, sets
isEmergencyLaunch and notifies; otherwise spawns the LoaderTask (the
log purge, database-handler setup and BuildData check mutate nothing
the claims observe). -/
def Controller.start (c : Controller) : Except StartError Controller :=
  if c.isStarted then Except.ok c
  else
    let s := { c with isStarted := true }
    if s.updatesConfiguration.isEnabled = false then
      Controller.notifyController { s with launcher := some noDatabaseLauncher }
    else if s.updatesConfiguration.updateUrl = none ∨
        s.updatesConfiguration.scopeKey = none then
      Except.error (StartError.assertionFailed
        "expo-updates is enabled, but no valid URL is configured")
    else if s.updatesDirectory = none then
      Controller.notifyController
        { s with launcher := some noDatabaseLauncher, isEmergencyLaunch := true }
    else
      Except.ok { s with loaderTaskSpawned := true }

/-- Shallow embedding of the LoaderTaskCallback.onSuccess body in start:
stores the launcher delivered by the LoaderTask and notifies. -/
def Controller.onLoaderTaskSuccess (c : Controller) (l : Launcher) :
    Except StartError Controller :=
  Controller.notifyController { c with launcher := some l }

/-- Shallow embedding of the LoaderTaskCallback.onFailure body in start:
installs the no-database launcher, sets isEmergencyLaunch and notifies. -/
def Controller.onLoaderTaskFailure (c : Controller) :
    Except StartError Controller :=
  Controller.notifyController
    { c with launcher := some noDatabaseLauncher, isEmergencyLaunch := true }

/-- The controller states of a started engine: a state reached by a
successful start call on a freshly initialized controller, followed by
LoaderTask terminal callbacks. Modelled from the spec where the
LoaderTask is concerned (its class is not under src/): the LoaderTask
delivers at most one terminal callback (section 4.3 ordering guarantee,
hence isLoaderTaskFinished is still unset when one arrives), and a
launcher it delivers on success resolves the launch asset of a stored
update, so its launchAssetFile is nonnull. -/
inductive Reachable : Controller → Prop where
  | fromStart (c c2 : Controller)
      (hStarted : c.isStarted = false)
      (hLauncher : c.launcher = none)
      (hFinished : c.isLoaderTaskFinished = false)
      (hEmergency : c.isEmergencyLaunch = false)
      (hSpawned : c.loaderTaskSpawned = false)
      (hok : Controller.start c = Except.ok c2) : Reachable c2
  | loaderSuccess (c : Controller) (l : Launcher) (c2 : Controller)
      (hr : Reachable c)
      (hSpawned : c.loaderTaskSpawned = true)
      (hNotFinished : c.isLoaderTaskFinished = false)
      (hAsset : l.launchAssetFile ≠ none)
      (hok : Controller.onLoaderTaskSuccess c l = Except.ok c2) : Reachable c2
  | loaderFailure (c c2 : Controller)
      (hr : Reachable c)
      (hSpawned : c.loaderTaskSpawned = true)
      (hNotFinished : c.isLoaderTaskFinished = false)
      (hok : Controller.onLoaderTaskFailure c = Except.ok c2) : Reachable c2

/-- The state invariant maintained by the started-engine transitions,
relating the launcher's launch asset path to the emergency and
enabled flags. -/
def ControllerInv (c : Controller) : Prop :=
  (c.loaderTaskSpawned = true → c.updatesConfiguration.isEnabled = true) ∧
  (c.loaderTaskSpawned = true → c.isLoaderTaskFinished = false →
    c.isEmergencyLaunch = false) ∧
  (c.isLoaderTaskFinished = true → ∃ l, c.launcher = some l ∧
    (l.launchAssetFile = none ↔
      (c.isEmergencyLaunch = true ∨ c.updatesConfiguration.isEnabled = false)))

/-! ## checkForUpdate (UpdatesController.checkForUpdate) -/

/-- The reasons carried by CheckForUpdateResult.NoUpdateAvailable
(LoaderTask.RemoteCheckResultNotAvailableReason). -/
inductive NotAvailableReason where
  | rollbackNoEmbedded
  | rollbackRejectedBySelectionPolicy
  | noUpdateAvailableOnServer
  | updatePreviouslyFailed
  | updateRejectedBySelectionPolicy
deriving DecidableEq, Repr

/-- The result delivered to the checkForUpdate callback
(UpdatesController.CheckForUpdateResult). -/
inductive CheckForUpdateResult where
  | noUpdateAvailable (reason : NotAvailableReason)
  | updateAvailable (updateManifest : UpdateManifest)
  | rollBackToEmbedded (commitTime : Nat)
  | errorResult (message : String)
deriving DecidableEq, Repr

/-- The state-machine events a checkForUpdate invocation can hand to
stateMachine.processEvent. -/
inductive UpdatesStateEvent where
  | check
  | checkCompleteUnavailable
  | checkCompleteWithUpdate (manifest : String)
  | checkCompleteWithRollback (commitTime : Nat)
  | checkError (message : String)
deriving DecidableEq, Repr

/-- The controller state checkForUpdate reads: the hasEmbeddedUpdate
configuration flag, the embedded manifest's update entity (null when no
embedded manifest exists), the launched update, the selection policy and
the catalog rows. -/
structure CheckContext where
  hasEmbeddedUpdate : Bool
  embeddedUpdate : Option UpdateEntity
  launchedUpdate : Option UpdateEntity
  selectionPolicy : SelectionPolicy
  db : Catalog

/-- What one pass through the checkForUpdate response handler produces:
the single callback result, the state-machine events it processes (in
order, not counting the initial Check), and the controller state it
leaves behind. -/
structure CheckOutcome where
  result : CheckForUpdateResult
  events : List UpdatesStateEvent
  after : CheckContext

/-- Shallow embedding of the rollback-directive branch of the
checkForUpdate onSuccess handler (Kotlin source, lines 706-734): without
hasEmbeddedUpdate, or without an embedded manifest, or when the
selection policy rejects the directive, the callback gets
NoUpdateAvailable with the matching reason and CheckCompleteUnavailable
is processed; otherwise the callback gets RollBackToEmbedded(commitTime)
and CheckCompleteWithRollback(commitTime) is processed. -/
def checkRollbackBranch (ctx : CheckContext) (resp : UpdateResponse) (ct : Nat) :
    CheckOutcome :=
  if ctx.hasEmbeddedUpdate = false then
    { result := CheckForUpdateResult.noUpdateAvailable NotAvailableReason.rollbackNoEmbedded
      events := [UpdatesStateEvent.checkCompleteUnavailable]
      after := ctx }
  else
    match ctx.embeddedUpdate with
    | none =>
        { result := CheckForUpdateResult.noUpdateAvailable NotAvailableReason.rollbackNoEmbedded
          events := [UpdatesStateEvent.checkCompleteUnavailable]
          after := ctx }
    | some embedded =>
        if ctx.selectionPolicy.shouldLoadRollBackToEmbeddedDirective
            (UpdateDirective.rollBackToEmbedded ct) embedded ctx.launchedUpdate
            resp.manifestFilters = false then
          { result := CheckForUpdateResult.noUpdateAvailable
              NotAvailableReason.rollbackRejectedBySelectionPolicy
            events := [UpdatesStateEvent.checkCompleteUnavailable]
            after := ctx }
        else
          { result := CheckForUpdateResult.rollBackToEmbedded ct
            events := [UpdatesStateEvent.checkCompleteWithRollback ct]
            after := ctx }

/-- Shallow embedding of the manifest handling of the checkForUpdate
onSuccess handler (Kotlin source, lines 737-789). With no manifest the
callback gets NoUpdateAvailable(NO_UPDATE_AVAILABLE_ON_SERVER); the
source constructs UpdatesStateEvent.CheckCompleteUnavailable() on that
path but never passes it to stateMachine.processEvent, so the processed
event list is empty there. With no launched update the callback gets
UpdateAvailable. Otherwise shouldLaunch starts from the selection
policy's verdict and is cleared again when the update is already stored
with a nonzero failedLaunchCount, in which case the reason is
UPDATE_PREVIOUSLY_FAILED. -/
def checkManifestBranch (ctx : CheckContext) (resp : UpdateResponse) :
    CheckOutcome :=
  match resp.manifest with
  | none =>
      { result := CheckForUpdateResult.noUpdateAvailable
          NotAvailableReason.noUpdateAvailableOnServer
        events := []
        after := ctx }
  | some um =>
      match ctx.launchedUpdate with
      | none =>
          { result := CheckForUpdateResult.updateAvailable um
            events := [UpdatesStateEvent.checkCompleteWithUpdate um.manifest]
            after := ctx }
      | some launched =>
          let sf : Bool × Bool :=
            if ctx.selectionPolicy.shouldLoadNewUpdate um.updateEntity
                (some launched) resp.manifestFilters then
              match um.updateEntity with
              | none => (true, false)
              | some ue =>
                  match loadUpdateWithId ctx.db ue.id with
                  | none => (true, false)
                  | some stored =>
                      (stored.failedLaunchCount == 0,
                        !(stored.failedLaunchCount == 0))
            else (false, false)
          if sf.1 then
            { result := CheckForUpdateResult.updateAvailable um
              events := [UpdatesStateEvent.checkCompleteWithUpdate um.manifest]
              after := ctx }
          else
            { result := CheckForUpdateResult.noUpdateAvailable
                (if sf.2 then NotAvailableReason.updatePreviouslyFailed
                 else NotAvailableReason.updateRejectedBySelectionPolicy)
              events := [UpdatesStateEvent.checkCompleteUnavailable]
              after := ctx }

/-- Shallow embedding of the checkForUpdate onSuccess handler: a
RollBackToEmbedded directive is handled by the rollback branch and
returns; any other response (no directive, or a NoUpdateAvailable
directive) falls through to the manifest handling. -/
def checkForUpdateOnSuccess (ctx : CheckContext) (resp : UpdateResponse) :
    CheckOutcome :=
  match resp.directive with
  | some (UpdateDirective.rollBackToEmbedded ct) => checkRollbackBranch ctx resp ct
  | some UpdateDirective.noUpdateAvailable => checkManifestBranch ctx resp
  | none => checkManifestBranch ctx resp

/-- The admission condition of the rollback branch, read off from its
three guards: the configuration has hasEmbeddedUpdate, the embedded
manifest exists, and the selection policy admits the directive against
the launched update and the response's manifest filters. -/
def rollbackAdmitted (ctx : CheckContext) (resp : UpdateResponse) (ct : Nat) : Prop :=
  ctx.hasEmbeddedUpdate = true ∧
  ∃ e, ctx.embeddedUpdate = some e ∧
    ctx.selectionPolicy.shouldLoadRollBackToEmbeddedDirective
      (UpdateDirective.rollBackToEmbedded ct) e ctx.launchedUpdate
      resp.manifestFilters = true

/-- The terminal outcome of the one-shot remote download started by
checkForUpdate: the download either fails with a message or succeeds
with a parsed UpdateResponse. -/
inductive DownloadOutcome where
  | failure (message : String)
  | success (resp : UpdateResponse)
deriving Repr

/-- Shallow embedding of a whole checkForUpdate invocation: the initial
Check event is processed first; a download failure processes
CheckError(message) and delivers ErrorResult; a download success runs
the onSuccess handler. The returned event list is the full ordered list
handed to stateMachine.processEvent. -/
def checkForUpdateRun (ctx : CheckContext) (outcome : DownloadOutcome) :
    CheckForUpdateResult × List UpdatesStateEvent :=
  match outcome with
  | DownloadOutcome.failure msg =>
      (CheckForUpdateResult.errorResult msg,
        [UpdatesStateEvent.check, UpdatesStateEvent.checkError msg])
  | DownloadOutcome.success resp =>
      let o := checkForUpdateOnSuccess ctx resp
      (o.result, UpdatesStateEvent.check :: o.events)

/-! ## Database lease protocol (getExtraParams / setExtraParam) -/

/-- The observable actions of the extra-params operations on the
database holder and the callback: taking the lease (reading
databaseHolder.database), releasing it, and invoking the callback. -/
inductive LeaseAction where
  | acquire
  | release
  | cbOnSuccess
  | cbOnFailure
deriving DecidableEq, Repr

/-- True for the two callback actions. -/
def isCallbackAction : LeaseAction → Bool
  | LeaseAction.cbOnSuccess => true
  | LeaseAction.cbOnFailure => true
  | _ => false

/-- The extra-params map read or written through ManifestMetadata. -/
abbrev ExtraParams := List (String × String)

/-- Shallow embedding of the getExtraParams worker body (Kotlin source,
lines 907-931): reading databaseHolder.database takes the lease, then
ManifestMetadata.getExtraParams either returns (releaseDatabase, then
onSuccess with the bundled result) or throws (the catch block calls
releaseDatabase, then onFailure). The metadata operation is the
argument: ok is its return value, error its thrown exception. -/
def getExtraParamsActions (metaGet : Except String (Option ExtraParams)) :
    List LeaseAction :=
  match metaGet with
  | Except.ok _ =>
      [LeaseAction.acquire, LeaseAction.release, LeaseAction.cbOnSuccess]
  | Except.error _ =>
      [LeaseAction.acquire, LeaseAction.release, LeaseAction.cbOnFailure]

/-- Shallow embedding of the setExtraParam worker body (Kotlin source,
lines 938-954), with the same try/catch shape as getExtraParams. -/
def setExtraParamActions (metaSet : Except String Unit) : List LeaseAction :=
  match metaSet with
  | Except.ok _ =>
      [LeaseAction.acquire, LeaseAction.release, LeaseAction.cbOnSuccess]
  | Except.error _ =>
      [LeaseAction.acquire, LeaseAction.release, LeaseAction.cbOnFailure]

/-- The lease is taken exactly once and released exactly once. -/
def leaseBalanced (tr : List LeaseAction) : Prop :=
  tr.count LeaseAction.acquire = 1 ∧ tr.count LeaseAction.release = 1

/-- Every callback invocation is preceded by a release of the lease. -/
def releaseBeforeEveryCallback (tr : List LeaseAction) : Prop :=
  ∀ i : Fin tr.length, isCallbackAction (tr.get i) = true →
    ∃ j : Fin tr.length, j.val < i.val ∧ tr.get j = LeaseAction.release

/-! ## Launch counters (markFailed / markSuccessfulLaunchForLaunchedUpdate) -/

/-- Modelled from the spec: UpdateDao.incrementFailedLaunchCount is not
under src/; per the spec (section 3 invariant 3 and scenario S5) it adds
one to the failedLaunchCount of the given update's row. -/
def incrementFailedLaunchCount (db : Catalog) (u : UpdateEntity) : Catalog :=
  db.map fun row =>
    if row.id = u.id then
      { row with failedLaunchCount := row.failedLaunchCount + 1 }
    else row

/-- Modelled from the spec: UpdateDao.incrementSuccessfulLaunchCount is
not under src/; it adds one to the successfulLaunchCount of the given
update's row. -/
def incrementSuccessfulLaunchCount (db : Catalog) (u : UpdateEntity) : Catalog :=
  db.map fun row =>
    if row.id = u.id then
      { row with successfulLaunchCount := row.successfulLaunchCount + 1 }
    else row

/-- Shallow embedding of the ErrorRecoveryDelegate
markFailedLaunchForLaunchedUpdate (Kotlin source, lines 542-552):
returns untouched on an emergency launch or when no update is launched,
otherwise increments the launched update's failedLaunchCount. -/
def Controller.markFailedLaunchForLaunchedUpdate (c : Controller) : Controller :=
  if c.isEmergencyLaunch then c
  else
    match c.launchedUpdate with
    | none => c
    | some u => { c with catalog := incrementFailedLaunchCount c.catalog u }

/-- Shallow embedding of the ErrorRecoveryDelegate
markSuccessfulLaunchForLaunchedUpdate (Kotlin source, lines 554-564). -/
def Controller.markSuccessfulLaunchForLaunchedUpdate (c : Controller) : Controller :=
  if c.isEmergencyLaunch then c
  else
    match c.launchedUpdate with
    | none => c
    | some u => { c with catalog := incrementSuccessfulLaunchCount c.catalog u }

/-- Which of the two mark operations a call in a sequence is. -/
inductive MarkCall where
  | failed
  | successful
deriving DecidableEq, Repr

/-- Dispatches one mark call to the matching controller operation. -/
def markStep (s : Controller) (m : MarkCall) : Controller :=
  match m with
  | MarkCall.failed => s.markFailedLaunchForLaunchedUpdate
  | MarkCall.successful => s.markSuccessfulLaunchForLaunchedUpdate

/-- Runs a sequence of mark calls against the controller. -/
def applyMarks (c : Controller) (seq : List MarkCall) : Controller :=
  seq.foldl markStep c

/-- Row-wise comparison of two catalogs: same rows at the same
positions, with both launch counters at least as large on the right. -/
def rowsMonotone (a b : Catalog) : Prop :=
  b.length = a.length ∧ ∀ (j : Nat) (ha : j < a.length) (hb : j < b.length),
    a[j].failedLaunchCount ≤ b[j].failedLaunchCount ∧
    a[j].successfulLaunchCount ≤ b[j].successfulLaunchCount

/-- Row-wise effect of one markFailed call: every row is unchanged or
has exactly its failedLaunchCount incremented by one. -/
def stepFailedOrSame (a b : Catalog) : Prop :=
  b.length = a.length ∧ ∀ (j : Nat) (ha : j < a.length) (hb : j < b.length),
    b[j] = a[j] ∨
    (b[j].failedLaunchCount = a[j].failedLaunchCount + 1 ∧
      b[j].successfulLaunchCount = a[j].successfulLaunchCount)

/-- Row-wise effect of one markSuccessful call: every row is unchanged
or has exactly its successfulLaunchCount incremented by one. -/
def stepSuccessfulOrSame (a b : Catalog) : Prop :=
  b.length = a.length ∧ ∀ (j : Nat) (ha : j < a.length) (hb : j < b.length),
    b[j] = a[j] ∨
    (b[j].successfulLaunchCount = a[j].successfulLaunchCount + 1 ∧
      b[j].failedLaunchCount = a[j].failedLaunchCount)

end ExpoUpdates

namespace ExpoUpdatesIOS

/-! ## AppLauncherNoDatabase (src/unnamed/part_001, Swift) -/

/-- The state of an AppLauncherNoDatabase instance: the three stored
properties of the Swift class. -/
structure AppLauncherNoDatabase where
  launchedUpdate : Option ExpoUpdates.UpdateEntity
  launchAssetUrl : Option String
  assetFilesMap : Option (List (String × String))
deriving DecidableEq, Repr

/-- The Swift initializer: all three properties start nil. -/
def AppLauncherNoDatabase.new : AppLauncherNoDatabase :=
  { launchedUpdate := none, launchAssetUrl := none, assetFilesMap := none }

/-- Shallow embedding of launchUpdate(withConfig:): stores the embedded
manifest as launchedUpdate and, when it exists, the bare embedded bundle
URL from the main bundle as launchAssetUrl. The embedded manifest and
the bundle URL are the environment the call reads, passed as arguments. -/
def AppLauncherNoDatabase.launchUpdate (l : AppLauncherNoDatabase)
    (embeddedManifestUpdate : Option ExpoUpdates.UpdateEntity)
    (bundleMainUrl : Option String) : AppLauncherNoDatabase :=
  match embeddedManifestUpdate with
  | some u =>
      { l with launchedUpdate := some u, launchAssetUrl := bundleMainUrl }
  | none => { l with launchedUpdate := none }

/-- Shallow embedding of isUsingEmbeddedAssets(): assetFilesMap == nil. -/
def AppLauncherNoDatabase.isUsingEmbeddedAssets (l : AppLauncherNoDatabase) : Bool :=
  l.assetFilesMap.isNone

/-- Runs any sequence of launchUpdate calls on a fresh instance; each
list element is the (embedded manifest, main-bundle URL) environment of
one call. -/
def AppLauncherNoDatabase.runLaunches
    (envs : List (Option ExpoUpdates.UpdateEntity × Option String)) :
    AppLauncherNoDatabase :=
  envs.foldl (fun l e => l.launchUpdate e.1 e.2) AppLauncherNoDatabase.new

end ExpoUpdatesIOS

namespace ExpoUpdates

/-! ## Concrete sample states used by witnesses and counterexamples -/

/-- A selection policy that admits every candidate and every rollback
directive. -/
def samplePolicyTrue : SelectionPolicy :=
  { shouldLoadNewUpdate := fun _ _ _ => true
    shouldLoadRollBackToEmbeddedDirective := fun _ _ _ _ => true }

/-- A sample embedded update (commitTime 100). -/
def sampleEmbedded : UpdateEntity :=
  { id := "embedded", commitTime := 100, failedLaunchCount := 0
    successfulLaunchCount := 0, manifest := "embedded-manifest" }

/-- A sample currently launched update (commitTime 150). -/
def sampleLaunched : UpdateEntity :=
  { id := "u1", commitTime := 150, failedLaunchCount := 0
    successfulLaunchCount := 1, manifest := "u1-manifest" }

/-- A sample remote update entity (commitTime 200) as parsed from a
response manifest. -/
def sampleRemote : UpdateEntity :=
  { id := "u2", commitTime := 200, failedLaunchCount := 0
    successfulLaunchCount := 0, manifest := "u2-manifest" }

/-- The catalog row of sampleRemote after one failed and no successful
launch. -/
def sampleRemoteFailedRow : UpdateEntity :=
  { id := "u2", commitTime := 200, failedLaunchCount := 1
    successfulLaunchCount := 0, manifest := "u2-manifest" }

/-- A sample response manifest wrapping sampleRemote. -/
def sampleManifest : UpdateManifest :=
  { updateEntity := some sampleRemote, manifest := "u2-manifest" }

/-- A sample checkForUpdate context with an embedded update, a launched
update, the admit-everything policy and an empty catalog. -/
def sampleCtx : CheckContext :=
  { hasEmbeddedUpdate := true
    embeddedUpdate := some sampleEmbedded
    launchedUpdate := some sampleLaunched
    selectionPolicy := samplePolicyTrue
    db := [] }

/-- sampleCtx with the remote update already stored after a failed
launch. -/
def sampleCtxFailedStore : CheckContext :=
  { sampleCtx with db := [sampleLaunched, sampleRemoteFailedRow] }

/-- sampleCtx with the remote update stored with no launch failures. -/
def sampleCtxCleanStore : CheckContext :=
  { sampleCtx with db := [sampleLaunched, sampleRemote] }

/-- A response carrying only the sample manifest. -/
def sampleManifestResponse : UpdateResponse :=
  { directive := none, manifest := some sampleManifest, manifestFilters := none }

/-- A response carrying only a RollBackToEmbedded(400) directive. -/
def sampleRollbackResponse : UpdateResponse :=
  { directive := some (UpdateDirective.rollBackToEmbedded 400)
    manifest := none, manifestFilters := none }

/-- A response with neither a directive part nor a manifest part. -/
def sampleEmptyResponse : UpdateResponse :=
  { directive := none, manifest := none, manifestFilters := none }

/-- A freshly initialized controller whose configuration has updates
disabled. -/
def cDisabledFresh : Controller :=
  { updatesConfiguration :=
      { isEnabled := false, updateUrl := none, scopeKey := none
        hasEmbeddedUpdate := false }
    updatesDirectory := none
    launcher := none
    isStarted := false
    isLoaderTaskFinished := false
    isEmergencyLaunch := false
    loaderTaskSpawned := false
    catalog := [] }

/-- The state cDisabledFresh reaches through start: started, no-database
launcher installed, loader task finished, not an emergency launch. -/
def cDisabledStarted : Controller :=
  { cDisabledFresh with
      isStarted := true
      launcher := some noDatabaseLauncher
      isLoaderTaskFinished := true }

/-- A freshly initialized controller with a valid enabled configuration
whose updates directory could not be created. -/
def cDirFailFresh : Controller :=
  { updatesConfiguration :=
      { isEnabled := true, updateUrl := some "https://u.expo.dev/app"
        scopeKey := some "@scope/app", hasEmbeddedUpdate := true }
    updatesDirectory := none
    launcher := none
    isStarted := false
    isLoaderTaskFinished := false
    isEmergencyLaunch := false
    loaderTaskSpawned := false
    catalog := [sampleLaunched] }

/-- A controller in an emergency launch with the launched update stored,
used to exercise the mark-launch operations. -/
def cEmergencyMark : Controller :=
  { cDirFailFresh with
      isStarted := true
      launcher := some noDatabaseLauncher
      isLoaderTaskFinished := true
      isEmergencyLaunch := true }

end ExpoUpdates

namespace ExpoSQLite

/-! ## Theorems: parameter normalization -/

/-- C10: normalizeParams classifies bind parameters deterministically:
more than one argument, or a single array argument, yields those values
as an array with shouldPassAsObject false; a single non-object scalar
yields the one-element array containing it with shouldPassAsObject
false; a single non-array object yields that object with
shouldPassAsObject true; and the Statement run/get/all/each dispatch
picks the object-binding native call exactly when given a single
non-array object. -/
theorem normalizeParams_classification (params : List JSVal) :
    (params.length > 1 → normalizeParams params = (JSVal.jarr params, false)) ∧
    (∀ xs, params = [JSVal.jarr xs] →
      normalizeParams params = (JSVal.jarr xs, false)) ∧
    (∀ v, params = [v] → typeofIsObject v = false →
      normalizeParams params = (JSVal.jarr [v], false)) ∧
    (∀ v, params = [v] → typeofIsObject v = true → isArray v = false →
      normalizeParams params = (v, true)) ∧
    ((runDispatch params).1 = NativeCall.objectCall ↔
      ∃ v, params = [v] ∧ typeofIsObject v = true ∧ isArray v = false) := by
  refine ⟨?_, ?_, ?_, ?_, ?_⟩
  · intro h
    simp [normalizeParams, if_pos h, typeofIsObject, isArray]
  · intro xs h
    subst h
    simp [normalizeParams, headOrUndefined, typeofIsObject, isArray]
  · intro v h hT
    subst h
    cases v <;>
      simp_all [normalizeParams, headOrUndefined, typeofIsObject, isArray]
  · intro v h hT hA
    subst h
    cases v <;>
      simp_all [normalizeParams, headOrUndefined, typeofIsObject, isArray]
  · match params with
    | [] =>
        simp [runDispatch, normalizeParams, headOrUndefined, typeofIsObject,
          isArray]
    | [v] =>
        cases v <;>
          simp [runDispatch, normalizeParams, headOrUndefined, typeofIsObject,
            isArray]
    | a :: b :: t =>
        have hlen : (a :: b :: t).length > 1 := by simp
        simp [runDispatch, normalizeParams, if_pos hlen, typeofIsObject,
          isArray]

/-- Witness: the classification evaluated at one concrete argument list
of each shape. -/
theorem normalizeParams_classification_witness :
    normalizeParams [JSVal.jnum 1, JSVal.jnum 2] =
      (JSVal.jarr [JSVal.jnum 1, JSVal.jnum 2], false) ∧
    normalizeParams [JSVal.jarr [JSVal.jnum 3]] =
      (JSVal.jarr [JSVal.jnum 3], false) ∧
    normalizeParams [JSVal.jnum 7] = (JSVal.jarr [JSVal.jnum 7], false) ∧
    normalizeParams [JSVal.jobj [("k", JSVal.jnum 1)]] =
      (JSVal.jobj [("k", JSVal.jnum 1)], true) := by
  refine ⟨?_, ?_, ?_, ?_⟩
  · exact (normalizeParams_classification [JSVal.jnum 1, JSVal.jnum 2]).1
      (by simp)
  · exact (normalizeParams_classification [JSVal.jarr [JSVal.jnum 3]]).2.1
      [JSVal.jnum 3] rfl
  · exact (normalizeParams_classification [JSVal.jnum 7]).2.2.1
      (JSVal.jnum 7) rfl rfl
  · exact (normalizeParams_classification
      [JSVal.jobj [("k", JSVal.jnum 1)]]).2.2.2.1
      (JSVal.jobj [("k", JSVal.jnum 1)]) rfl rfl rfl

end ExpoSQLite

namespace ExpoUpdates

/-! ## Theorems: engine facade -/

/-- C6: start is idempotent: on any controller state where start has
already run, a second call returns immediately with the state entirely
unchanged (no loader task, launcher, configuration or flag changes). -/
theorem start_idempotent (c : Controller) (h : c.isStarted = true) :
    Controller.start c = Except.ok c := by
  simp [Controller.start, h]

/-- Witness: a second start call on the concrete started controller is a
no-op. -/
theorem start_idempotent_witness :
    Controller.start cDisabledStarted = Except.ok cDisabledStarted :=
  start_idempotent cDisabledStarted rfl

/-- C8: getExtraParams and setExtraParam each take the database lease
exactly once and release it exactly once, the release happens before
the callback on both the success and the throwing path of the metadata
operation, and exactly one callback is invoked. -/
theorem extraParams_lease_protocol
    (metaGet : Except String (Option ExtraParams))
    (metaSet : Except String Unit) :
    leaseBalanced (getExtraParamsActions metaGet) ∧
    releaseBeforeEveryCallback (getExtraParamsActions metaGet) ∧
    (getExtraParamsActions metaGet).countP (fun a => isCallbackAction a) = 1 ∧
    leaseBalanced (setExtraParamActions metaSet) ∧
    releaseBeforeEveryCallback (setExtraParamActions metaSet) ∧
    (setExtraParamActions metaSet).countP (fun a => isCallbackAction a) = 1 := by
  cases metaGet <;> cases metaSet <;>
    refine ⟨?_, ?_, ?_, ?_, ?_, ?_⟩ <;>
    · simp only [getExtraParamsActions, setExtraParamActions, leaseBalanced,
        releaseBeforeEveryCallback]
      decide

/-- Witness: the lease balance evaluated on the throwing path of both
operations. -/
theorem extraParams_lease_protocol_witness :
    leaseBalanced (getExtraParamsActions (Except.error "metadata read failed")) ∧
    leaseBalanced (setExtraParamActions (Except.error "metadata write failed")) :=
  ⟨(extraParams_lease_protocol (Except.error "metadata read failed")
      (Except.error "metadata write failed")).1,
    (extraParams_lease_protocol (Except.error "metadata read failed")
      (Except.error "metadata write failed")).2.2.2.1⟩

/-- C2: on the manifest-absent success path, checkForUpdate delivers the
NoUpdateAvailable callback but processes no terminal StateMachine event
after the initial Check: the source constructs CheckCompleteUnavailable
there without passing it to processEvent, so the full processed event
list of the invocation is just the initial Check. -/
theorem checkForUpdate_manifestAbsent_missingTerminalEvent :
    checkForUpdateRun sampleCtx (DownloadOutcome.success sampleEmptyResponse) =
      (CheckForUpdateResult.noUpdateAvailable
        NotAvailableReason.noUpdateAvailableOnServer,
        [UpdatesStateEvent.check]) := rfl

/-- C4: a server response with neither a directive part nor a manifest
part is treated as no update being available: the callback receives
NoUpdateAvailable with reason NO_UPDATE_AVAILABLE_ON_SERVER, and neither
the catalog nor the launched update is changed. -/
theorem checkForUpdate_bothPartsAbsent (ctx : CheckContext)
    (resp : UpdateResponse) (h1 : resp.directive = none)
    (h2 : resp.manifest = none) :
    (checkForUpdateOnSuccess ctx resp).result =
      CheckForUpdateResult.noUpdateAvailable
        NotAvailableReason.noUpdateAvailableOnServer ∧
    (checkForUpdateOnSuccess ctx resp).after.db = ctx.db ∧
    (checkForUpdateOnSuccess ctx resp).after.launchedUpdate =
      ctx.launchedUpdate := by
  simp [checkForUpdateOnSuccess, h1, checkManifestBranch, h2]

/-- Witness: the empty response evaluated on the concrete sample
context. -/
theorem checkForUpdate_bothPartsAbsent_witness :
    (checkForUpdateOnSuccess sampleCtx sampleEmptyResponse).result =
      CheckForUpdateResult.noUpdateAvailable
        NotAvailableReason.noUpdateAvailableOnServer ∧
    (checkForUpdateOnSuccess sampleCtx sampleEmptyResponse).after.db =
      sampleCtx.db ∧
    (checkForUpdateOnSuccess sampleCtx sampleEmptyResponse).after.launchedUpdate =
      sampleCtx.launchedUpdate :=
  checkForUpdate_bothPartsAbsent sampleCtx sampleEmptyResponse rfl rfl

/-- C3: on a RollBackToEmbedded directive, checkForUpdate delivers
RollBackToEmbedded(commitTime) and processes
CheckCompleteWithRollback(commitTime) exactly when the configuration
has hasEmbeddedUpdate, the embedded manifest exists, and the selection
policy admits the directive; in every other rollback-directive case it
delivers NoUpdateAvailable with a reason and processes
CheckCompleteUnavailable. -/
theorem checkForUpdate_rollback_spec (ctx : CheckContext)
    (resp : UpdateResponse) (ct : Nat)
    (h : resp.directive = some (UpdateDirective.rollBackToEmbedded ct)) :
    (((checkForUpdateOnSuccess ctx resp).result =
        CheckForUpdateResult.rollBackToEmbedded ct ∧
      (checkForUpdateOnSuccess ctx resp).events =
        [UpdatesStateEvent.checkCompleteWithRollback ct]) ↔
      rollbackAdmitted ctx resp ct) ∧
    (¬ rollbackAdmitted ctx resp ct →
      ∃ r, (checkForUpdateOnSuccess ctx resp).result =
          CheckForUpdateResult.noUpdateAvailable r ∧
        (checkForUpdateOnSuccess ctx resp).events =
          [UpdatesStateEvent.checkCompleteUnavailable]) := by
  have hred : checkForUpdateOnSuccess ctx resp = checkRollbackBranch ctx resp ct := by
    simp [checkForUpdateOnSuccess, h]
  rw [hred]
  unfold checkRollbackBranch rollbackAdmitted
  cases hH : ctx.hasEmbeddedUpdate
  · simp [hH]
  · cases hE : ctx.embeddedUpdate with
    | none => simp [hH, hE]
    | some e =>
        cases hP : ctx.selectionPolicy.shouldLoadRollBackToEmbeddedDirective
            (UpdateDirective.rollBackToEmbedded ct) e ctx.launchedUpdate
            resp.manifestFilters
        · simp [hH, hE, hP]
        · simp [hH, hE, hP]

/-- Witness: the admitted rollback evaluated on the concrete sample
context and the RollBackToEmbedded(400) response. -/
theorem checkForUpdate_rollback_spec_witness :
    (checkForUpdateOnSuccess sampleCtx sampleRollbackResponse).result =
      CheckForUpdateResult.rollBackToEmbedded 400 ∧
    (checkForUpdateOnSuccess sampleCtx sampleRollbackResponse).events =
      [UpdatesStateEvent.checkCompleteWithRollback 400] :=
  (checkForUpdate_rollback_spec sampleCtx sampleRollbackResponse 400 rfl).1.mpr
    ⟨rfl, sampleEmbedded, rfl, rfl⟩

/-- C5: when a response manifest's update is admitted by the selection
policy against a launched update, a stored copy with failedLaunchCount
at least one and successfulLaunchCount zero makes checkForUpdate report
NoUpdateAvailable(UPDATE_PREVIOUSLY_FAILED) instead of UpdateAvailable;
an admitted update stored with no launch failures, or not stored at
all, is reported as UpdateAvailable. -/
theorem checkForUpdate_previouslyFailed_spec (ctx : CheckContext)
    (resp : UpdateResponse) (um : UpdateManifest) (launched : UpdateEntity)
    (hd : ∀ ct, resp.directive ≠ some (UpdateDirective.rollBackToEmbedded ct))
    (hm : resp.manifest = some um)
    (hl : ctx.launchedUpdate = some launched)
    (hpol : ctx.selectionPolicy.shouldLoadNewUpdate um.updateEntity
      (some launched) resp.manifestFilters = true) :
    (∀ ue stored, um.updateEntity = some ue →
      loadUpdateWithId ctx.db ue.id = some stored →
      1 ≤ stored.failedLaunchCount → stored.successfulLaunchCount = 0 →
      (checkForUpdateOnSuccess ctx resp).result =
        CheckForUpdateResult.noUpdateAvailable
          NotAvailableReason.updatePreviouslyFailed ∧
      (checkForUpdateOnSuccess ctx resp).events =
        [UpdatesStateEvent.checkCompleteUnavailable]) ∧
    (∀ ue stored, um.updateEntity = some ue →
      loadUpdateWithId ctx.db ue.id = some stored →
      stored.failedLaunchCount = 0 →
      (checkForUpdateOnSuccess ctx resp).result =
        CheckForUpdateResult.updateAvailable um ∧
      (checkForUpdateOnSuccess ctx resp).events =
        [UpdatesStateEvent.checkCompleteWithUpdate um.manifest]) ∧
    ((um.updateEntity = none ∨
        (∃ ue, um.updateEntity = some ue ∧ loadUpdateWithId ctx.db ue.id = none)) →
      (checkForUpdateOnSuccess ctx resp).result =
        CheckForUpdateResult.updateAvailable um ∧
      (checkForUpdateOnSuccess ctx resp).events =
        [UpdatesStateEvent.checkCompleteWithUpdate um.manifest]) := by
  have hred : checkForUpdateOnSuccess ctx resp = checkManifestBranch ctx resp := by
    cases hD : resp.directive with
    | none => simp [checkForUpdateOnSuccess, hD]
    | some d =>
        cases d with
        | rollBackToEmbedded ct => exact absurd hD (hd ct)
        | noUpdateAvailable => simp [checkForUpdateOnSuccess, hD]
  rw [hred]
  unfold checkManifestBranch
  refine ⟨?_, ?_, ?_⟩
  · intro ue stored hue hstored hfail hsucc
    rw [hue] at hpol
    have hb : (stored.failedLaunchCount == 0) = false := by
      simp only [beq_eq_false_iff_ne, ne_eq]
      omega
    simp [hm, hl, hpol, hue, hstored, hb]
  · intro ue stored hue hstored hfail
    rw [hue] at hpol
    have hb : (stored.failedLaunchCount == 0) = true := by
      simp [hfail]
    simp [hm, hl, hpol, hue, hstored, hb]
  · intro hcase
    cases hcase with
    | inl hnone =>
        rw [hnone] at hpol
        simp [hm, hl, hpol, hnone]
    | inr hex =>
        obtain ⟨ue, hue, hstored⟩ := hex
        rw [hue] at hpol
        simp [hm, hl, hpol, hue, hstored]

/-- Witness: the exclusion and the clean-store admission evaluated on
the concrete sample contexts. -/
theorem checkForUpdate_previouslyFailed_spec_witness :
    (checkForUpdateOnSuccess sampleCtxFailedStore sampleManifestResponse).result =
      CheckForUpdateResult.noUpdateAvailable
        NotAvailableReason.updatePreviouslyFailed ∧
    (checkForUpdateOnSuccess sampleCtxCleanStore sampleManifestResponse).result =
      CheckForUpdateResult.updateAvailable sampleManifest := by
  have hd : ∀ ct, sampleManifestResponse.directive ≠
      some (UpdateDirective.rollBackToEmbedded ct) := by
    intro ct h
    simp [sampleManifestResponse] at h
  have h1 := checkForUpdate_previouslyFailed_spec sampleCtxFailedStore
    sampleManifestResponse sampleManifest sampleLaunched hd rfl rfl rfl
  have h2 := checkForUpdate_previouslyFailed_spec sampleCtxCleanStore
    sampleManifestResponse sampleManifest sampleLaunched hd rfl rfl rfl
  refine ⟨?_, ?_⟩
  · exact (h1.1 sampleRemote sampleRemoteFailedRow rfl (by decide)
      (by decide) rfl).1
  · exact (h2.2.1 sampleRemote sampleRemote rfl (by decide) rfl).1

end ExpoUpdates

namespace ExpoUpdatesIOS

/-- launchUpdate never writes assetFilesMap. -/
theorem launchUpdate_assetFilesMap (l : AppLauncherNoDatabase)
    (e : Option ExpoUpdates.UpdateEntity) (u : Option String) :
    (l.launchUpdate e u).assetFilesMap = l.assetFilesMap := by
  unfold AppLauncherNoDatabase.launchUpdate
  cases e <;> rfl

/-- Folding launchUpdate calls preserves assetFilesMap. -/
theorem foldl_launchUpdate_assetFilesMap
    (envs : List (Option ExpoUpdates.UpdateEntity × Option String)) :
    ∀ l : AppLauncherNoDatabase,
      (envs.foldl (fun l e => l.launchUpdate e.1 e.2) l).assetFilesMap =
        l.assetFilesMap := by
  induction envs with
  | nil => intro l; rfl
  | cons e t ih =>
      intro l
      rw [List.foldl_cons, ih, launchUpdate_assetFilesMap]

/-- After any sequence of launchUpdate calls on a fresh instance,
isUsingEmbeddedAssets reports true. -/
theorem runLaunches_isUsingEmbeddedAssets
    (envs : List (Option ExpoUpdates.UpdateEntity × Option String)) :
    (AppLauncherNoDatabase.runLaunches envs).isUsingEmbeddedAssets = true := by
  unfold AppLauncherNoDatabase.runLaunches AppLauncherNoDatabase.isUsingEmbeddedAssets
  rw [foldl_launchUpdate_assetFilesMap]
  rfl

end ExpoUpdatesIOS

namespace ExpoUpdates

/-- C7: when the updates directory is unavailable at start with updates
enabled and a valid configuration, start does not throw: it installs the
no-database embedded launcher, sets isEmergencyLaunch, and signals
loader-task completion so launchAssetFile unblocks and returns null
(the embedded payload) without touching the catalog; and the emergency
launcher always reports isUsingEmbeddedAssets as true. -/
theorem start_directoryUnavailable_spec (c : Controller)
    (h0 : c.isStarted = false)
    (h1 : c.updatesConfiguration.isEnabled = true)
    (h2 : c.updatesConfiguration.updateUrl ≠ none)
    (h3 : c.updatesConfiguration.scopeKey ≠ none)
    (h4 : c.updatesDirectory = none) :
    Controller.start c = Except.ok
      { c with
          isStarted := true
          launcher := some noDatabaseLauncher
          isEmergencyLaunch := true
          isLoaderTaskFinished := true } ∧
    (∀ c2, Controller.start c = Except.ok c2 →
      c2.isEmergencyLaunch = true ∧
      c2.launcher = some noDatabaseLauncher ∧
      c2.launchAssetFileCall = some none ∧
      c2.catalog = c.catalog ∧
      c2.loaderTaskSpawned = c.loaderTaskSpawned) ∧
    noDatabaseLauncher.isUsingEmbeddedAssets = true ∧
    (∀ envs : List (Option UpdateEntity × Option String),
      (ExpoUpdatesIOS.AppLauncherNoDatabase.runLaunches envs).isUsingEmbeddedAssets =
        true) := by
  have hstart : Controller.start c = Except.ok
      { c with
          isStarted := true
          launcher := some noDatabaseLauncher
          isEmergencyLaunch := true
          isLoaderTaskFinished := true } := by
    simp [Controller.start, h0, h1, h2, h3, h4, Controller.notifyController]
  refine ⟨hstart, ?_, rfl,
    fun envs => ExpoUpdatesIOS.runLaunches_isUsingEmbeddedAssets envs⟩
  intro c2 hc2
  rw [hstart] at hc2
  have hc2eq : ({ c with
      isStarted := true
      launcher := some noDatabaseLauncher
      isEmergencyLaunch := true
      isLoaderTaskFinished := true } : Controller) = c2 :=
    by injection hc2
  subst hc2eq
  exact ⟨rfl, rfl, rfl, rfl, rfl⟩

/-- Witness: start on the concrete directory-unavailable controller. -/
theorem start_directoryUnavailable_spec_witness :
    Controller.start cDirFailFresh = Except.ok
      { cDirFailFresh with
          isStarted := true
          launcher := some noDatabaseLauncher
          isEmergencyLaunch := true
          isLoaderTaskFinished := true } :=
  (start_directoryUnavailable_spec cDirFailFresh rfl rfl
    (by simp [cDirFailFresh]) (by simp [cDirFailFresh]) rfl).1

/-- Row comparison is reflexive. -/
theorem rowsMonotone_refl (a : Catalog) : rowsMonotone a a :=
  ⟨rfl, fun _ _ _ => ⟨le_refl _, le_refl _⟩⟩

/-- Row comparison is transitive. -/
theorem rowsMonotone_trans {a b c : Catalog} (hab : rowsMonotone a b)
    (hbc : rowsMonotone b c) : rowsMonotone a c := by
  obtain ⟨hl1, hj1⟩ := hab
  obtain ⟨hl2, hj2⟩ := hbc
  refine ⟨hl2.trans hl1, ?_⟩
  intro j ha hc
  have hb : j < b.length := by omega
  exact ⟨(hj1 j ha hb).1.trans ((hj2 j hb hc).1),
    (hj1 j ha hb).2.trans ((hj2 j hb hc).2)⟩

/-- A catalog related to itself row-wise by the failed-step relation. -/
theorem stepFailedOrSame_refl (a : Catalog) : stepFailedOrSame a a :=
  ⟨rfl, fun _ _ _ => Or.inl rfl⟩

/-- A catalog related to itself row-wise by the successful-step
relation. -/
theorem stepSuccessfulOrSame_refl (a : Catalog) : stepSuccessfulOrSame a a :=
  ⟨rfl, fun _ _ _ => Or.inl rfl⟩

/-- One markFailed call either leaves each row unchanged or increments
exactly its failedLaunchCount by one. -/
theorem markFailed_stepFailedOrSame (c : Controller) :
    stepFailedOrSame c.catalog (c.markFailedLaunchForLaunchedUpdate).catalog := by
  unfold Controller.markFailedLaunchForLaunchedUpdate
  by_cases hE : c.isEmergencyLaunch = true
  · rw [if_pos hE]
    exact stepFailedOrSame_refl c.catalog
  · rw [if_neg hE]
    cases hL : c.launchedUpdate with
    | none => exact stepFailedOrSame_refl c.catalog
    | some u =>
        refine ⟨by simp [incrementFailedLaunchCount], ?_⟩
        intro j ha hb
        simp only [incrementFailedLaunchCount, List.getElem_map]
        by_cases hid : c.catalog[j].id = u.id
        · rw [if_pos hid]
          exact Or.inr ⟨rfl, rfl⟩
        · rw [if_neg hid]
          exact Or.inl rfl

/-- One markSuccessful call either leaves each row unchanged or
increments exactly its successfulLaunchCount by one. -/
theorem markSuccessful_stepSuccessfulOrSame (c : Controller) :
    stepSuccessfulOrSame c.catalog
      (c.markSuccessfulLaunchForLaunchedUpdate).catalog := by
  unfold Controller.markSuccessfulLaunchForLaunchedUpdate
  by_cases hE : c.isEmergencyLaunch = true
  · rw [if_pos hE]
    exact stepSuccessfulOrSame_refl c.catalog
  · rw [if_neg hE]
    cases hL : c.launchedUpdate with
    | none => exact stepSuccessfulOrSame_refl c.catalog
    | some u =>
        refine ⟨by simp [incrementSuccessfulLaunchCount], ?_⟩
        intro j ha hb
        simp only [incrementSuccessfulLaunchCount, List.getElem_map]
        by_cases hid : c.catalog[j].id = u.id
        · rw [if_pos hid]
          exact Or.inr ⟨rfl, rfl⟩
        · rw [if_neg hid]
          exact Or.inl rfl

/-- The failed-step relation implies row-wise counter growth. -/
theorem stepFailedOrSame_rowsMonotone {a b : Catalog}
    (h : stepFailedOrSame a b) : rowsMonotone a b := by
  obtain ⟨hl, hj⟩ := h
  refine ⟨hl, ?_⟩
  intro j ha hb
  rcases hj j ha hb with heq | ⟨hf, hs⟩
  · rw [heq]
    exact ⟨le_refl _, le_refl _⟩
  · exact ⟨by omega, by omega⟩

/-- The successful-step relation implies row-wise counter growth. -/
theorem stepSuccessfulOrSame_rowsMonotone {a b : Catalog}
    (h : stepSuccessfulOrSame a b) : rowsMonotone a b := by
  obtain ⟨hl, hj⟩ := h
  refine ⟨hl, ?_⟩
  intro j ha hb
  rcases hj j ha hb with heq | ⟨hs, hf⟩
  · rw [heq]
    exact ⟨le_refl _, le_refl _⟩
  · exact ⟨by omega, by omega⟩

/-- Any sequence of mark calls only grows the counters row-wise. -/
theorem applyMarks_rowsMonotone (seq : List MarkCall) :
    ∀ c : Controller, rowsMonotone c.catalog (applyMarks c seq).catalog := by
  induction seq with
  | nil => intro c; exact rowsMonotone_refl _
  | cons m t ih =>
      intro c
      have hstep : rowsMonotone c.catalog (markStep c m).catalog := by
        cases m with
        | failed =>
            exact stepFailedOrSame_rowsMonotone (markFailed_stepFailedOrSame c)
        | successful =>
            exact stepSuccessfulOrSame_rowsMonotone
              (markSuccessful_stepSuccessfulOrSame c)
      exact rowsMonotone_trans hstep (ih (markStep c m))

/-- markFailed is a no-op on an emergency launch or without a launched
update. -/
theorem markFailed_unchanged (c : Controller)
    (h : c.isEmergencyLaunch = true ∨ c.launchedUpdate = none) :
    c.markFailedLaunchForLaunchedUpdate = c := by
  unfold Controller.markFailedLaunchForLaunchedUpdate
  rcases h with hE | hL
  · rw [if_pos hE]
  · by_cases hE : c.isEmergencyLaunch = true
    · rw [if_pos hE]
    · rw [if_neg hE, hL]

/-- markSuccessful is a no-op on an emergency launch or without a
launched update. -/
theorem markSuccessful_unchanged (c : Controller)
    (h : c.isEmergencyLaunch = true ∨ c.launchedUpdate = none) :
    c.markSuccessfulLaunchForLaunchedUpdate = c := by
  unfold Controller.markSuccessfulLaunchForLaunchedUpdate
  rcases h with hE | hL
  · rw [if_pos hE]
  · by_cases hE : c.isEmergencyLaunch = true
    · rw [if_pos hE]
    · rw [if_neg hE, hL]

/-- C9: over every sequence of markFailed and markSuccessful calls the
launch counters never decrease row-wise; each single call either
increments the matching counter of the launched update's rows by one or
leaves the rows unchanged; and on an emergency launch or with no
launched update both calls leave the controller (hence the catalog)
entirely unchanged. -/
theorem markLaunch_counters_spec (c : Controller) (seq : List MarkCall) :
    rowsMonotone c.catalog (applyMarks c seq).catalog ∧
    stepFailedOrSame c.catalog (c.markFailedLaunchForLaunchedUpdate).catalog ∧
    stepSuccessfulOrSame c.catalog
      (c.markSuccessfulLaunchForLaunchedUpdate).catalog ∧
    ((c.isEmergencyLaunch = true ∨ c.launchedUpdate = none) →
      c.markFailedLaunchForLaunchedUpdate = c ∧
      c.markSuccessfulLaunchForLaunchedUpdate = c) :=
  ⟨applyMarks_rowsMonotone seq c, markFailed_stepFailedOrSame c,
    markSuccessful_stepSuccessfulOrSame c,
    fun h => ⟨markFailed_unchanged c h, markSuccessful_unchanged c h⟩⟩

/-- Witness: both mark calls leave the concrete emergency-launch
controller unchanged. -/
theorem markLaunch_counters_spec_witness :
    cEmergencyMark.markFailedLaunchForLaunchedUpdate = cEmergencyMark ∧
    cEmergencyMark.markSuccessfulLaunchForLaunchedUpdate = cEmergencyMark :=
  (markLaunch_counters_spec cEmergencyMark []).2.2.2 (Or.inl rfl)

end ExpoUpdates

namespace ExpoUpdates

/-- Every started-engine state satisfies the controller invariant: a
spawned loader task implies an enabled configuration and (until it
finishes) no emergency launch, and a finished loader task implies a
launcher whose launch asset path is null exactly when the engine is in
an emergency launch or updates are disabled. -/
theorem reachable_controllerInv (c : Controller) (hr : Reachable c) :
    ControllerInv c := by
  induction hr with
  | fromStart c0 c2 hStarted hLauncher hFinished hEmergency hSpawned hok =>
      unfold Controller.start at hok
      rw [if_neg (by simp [hStarted])] at hok
      by_cases hEn : c0.updatesConfiguration.isEnabled = false
      · rw [if_pos (by simpa using hEn)] at hok
        unfold Controller.notifyController at hok
        simp only [] at hok
        injection hok with hok2
        subst hok2
        refine ⟨?_, ?_, ?_⟩
        · intro hS; simp [hSpawned] at hS
        · intro hS; simp [hSpawned] at hS
        · intro _
          exact ⟨noDatabaseLauncher, rfl, by simp [noDatabaseLauncher, hEn]⟩
      · rw [if_neg (by simpa using hEn)] at hok
        by_cases hU : c0.updatesConfiguration.updateUrl = none ∨
            c0.updatesConfiguration.scopeKey = none
        · rw [if_pos (by simpa using hU)] at hok
          exact absurd hok (by simp)
        · rw [if_neg (by simpa using hU)] at hok
          by_cases hD : c0.updatesDirectory = none
          · rw [if_pos (by simpa using hD)] at hok
            unfold Controller.notifyController at hok
            simp only [] at hok
            injection hok with hok2
            subst hok2
            refine ⟨?_, ?_, ?_⟩
            · intro hS; simp [hSpawned] at hS
            · intro hS; simp [hSpawned] at hS
            · intro _
              exact ⟨noDatabaseLauncher, rfl, by simp [noDatabaseLauncher]⟩
          · rw [if_neg (by simpa using hD)] at hok
            injection hok with hok2
            subst hok2
            refine ⟨?_, ?_, ?_⟩
            · intro _
              simpa using (Bool.eq_true_of_not_eq_false hEn)
            · intro _ _
              simpa using hEmergency
            · intro hF
              simp [hFinished] at hF
  | loaderSuccess c0 l c2 hr hSpawned hNotFinished hAsset hok ih =>
      unfold Controller.onLoaderTaskSuccess Controller.notifyController at hok
      simp only [] at hok
      injection hok with hok2
      subst hok2
      refine ⟨?_, ?_, ?_⟩
      · intro hS
        simpa using ih.1 (by simpa using hS)
      · intro _ hF
        simp at hF
      · intro _
        refine ⟨l, rfl, ?_⟩
        have hEn : c0.updatesConfiguration.isEnabled = true :=
          ih.1 hSpawned
        have hEm : c0.isEmergencyLaunch = false :=
          ih.2.1 hSpawned hNotFinished
        simp [hAsset, hEm, hEn]
  | loaderFailure c0 c2 hr hSpawned hNotFinished hok ih =>
      unfold Controller.onLoaderTaskFailure Controller.notifyController at hok
      simp only [] at hok
      injection hok with hok2
      subst hok2
      refine ⟨?_, ?_, ?_⟩
      · intro hS
        simpa using ih.1 (by simpa using hS)
      · intro _ hF
        simp at hF
      · intro _
        exact ⟨noDatabaseLauncher, rfl, by simp [noDatabaseLauncher]⟩

/-- C1 (amended): on every started engine, a launchAssetFile call does
not return before isLoaderTaskFinished has been set by notifyController
and returns immediately once it is set; when it returns it yields the
current launcher's launch asset path, which is null exactly when the
engine is in the emergency-launch case or updates are disabled in the
configuration. -/
theorem launchAssetFile_blocking_spec (c : Controller) (hr : Reachable c) :
    (c.isLoaderTaskFinished = false → c.launchAssetFileCall = none) ∧
    (c.isLoaderTaskFinished = true →
      c.launchAssetFileCall = some c.currentLaunchAssetFile) ∧
    (∀ r, c.launchAssetFileCall = some r →
      c.isLoaderTaskFinished = true ∧ r = c.currentLaunchAssetFile ∧
      (r = none ↔ (c.isEmergencyLaunch = true ∨
        c.updatesConfiguration.isEnabled = false))) := by
  have hinv := reachable_controllerInv c hr
  refine ⟨?_, ?_, ?_⟩
  · intro h
    simp [Controller.launchAssetFileCall, h]
  · intro h
    simp [Controller.launchAssetFileCall, h]
  · intro r hcall
    unfold Controller.launchAssetFileCall at hcall
    by_cases hF : c.isLoaderTaskFinished = true
    · rw [if_pos hF] at hcall
      injection hcall with hcall2
      obtain ⟨l, hl, hiff⟩ := hinv.2.2 hF
      have hcur : c.currentLaunchAssetFile = l.launchAssetFile := by
        simp [Controller.currentLaunchAssetFile, hl]
      refine ⟨hF, hcall2.symm, ?_⟩
      rw [hcall2.symm, hcur]
      exact hiff
    · rw [if_neg hF] at hcall
      exact absurd hcall (by simp)

/-- Witness: the blocking getter returns immediately on the concrete
started controller whose loader task already finished. -/
theorem launchAssetFile_blocking_spec_witness :
    cDisabledStarted.launchAssetFileCall =
      some cDisabledStarted.currentLaunchAssetFile ∧
    cDisabledStarted.isLoaderTaskFinished = true := by
  have hreach : Reachable cDisabledStarted :=
    Reachable.fromStart cDisabledFresh cDisabledStarted rfl rfl rfl rfl rfl
      (by rfl)
  exact ⟨(launchAssetFile_blocking_spec cDisabledStarted hreach).2.1 rfl, rfl⟩

/-- Counterexample to C1 as stated: on the started engine whose
configuration has updates disabled, launchAssetFile returns null while
isEmergencyLaunch is false, so the returned path is not null exactly in
the emergency-launch case. -/
theorem launchAssetFile_null_without_emergency :
    Controller.start cDisabledFresh = Except.ok cDisabledStarted ∧
    cDisabledStarted.launchAssetFileCall = some none ∧
    cDisabledStarted.isEmergencyLaunch = false ∧
    cDisabledStarted.isStarted = true := by
  exact ⟨rfl, rfl, rfl, rfl⟩

end ExpoUpdates
